import Mathlib

/-!
Shallow embedding of the bgp-radar BGP anomaly detector (Go) in Lean 4.

Modelled components:
* reference tables (`Tier1ASNs`, `ScrubbingASNs`, blackhole communities)
  from `pkg/detector` (communities table file);
* the blackhole detector (`pkg/detector/blackhole.go`);
* the hijack detector (`pkg/detector/hijack.go`), with the Redis-backed
  origin/MOAS store modelled as explicit state (the local cache and the
  external store are written together by `setKnownOrigin` and agree within
  the cache TTL, so a single map per logical store is a faithful model of
  the detector with the external store attached);
* the leak detector (unnamed source part, `LeakDetector`);
* the RIS Live message parser (`pkg/rislive/parser.go`), with the
  schema-flexible JSON fields modelled by an explicit JSON value type and
  the behaviour of Go `encoding/json` unmarshalling into `uint32`,
  `[]uint32` and `string` made explicit;
* the event sink country-code enrichment (main package), including the Go
  dynamic type of the `Details["as_path"]` entry, which matters for the
  `[]interface\x7b\x7d` type assertion performed by the sink;
* the `FileResolver` CSV loader (database package).

Go machine integers that occur here (`uint32` ASNs, `int` prefix lengths)
never overflow in the modelled code paths, and are embedded as `Nat`/`Int`
with explicit range conditions where the Go code checks them. Go `float64`
confidence constants are embedded as the rationals written in the source.
-/

namespace BGPRadar

/-! ### Reference tables (pkg/detector communities table) -/

/-- Keys of the Go map `Tier1ASNs` (ASN → provider name); only membership
is relevant to the detectors. -/
def Tier1ASNs : List Nat :=
  [174, 209, 286, 701, 1239, 1299, 1828, 2914, 3257, 3320, 3356, 3491,
   5511, 6453, 6461, 6762, 6830, 6939, 7018, 12956]

/-- Keys of the Go map `ScrubbingASNs` (ASN → operator name). -/
def ScrubbingASNs : List Nat :=
  [198949, 48851, 25773, 15823,
   32787, 20940, 16625, 21342, 35994, 23454,
   13335, 209242, 394536, 395747,
   19551, 62571,
   19905, 12008, 397213,
   57724, 49612,
   197068,
   3223,
   34309,
   30148,
   20446, 33438,
   397031,
   16509, 14618, 8075, 396982, 15169]

/-- `RFC7999Blackhole` constant. -/
def RFC7999Blackhole : String := "65535:666"

/-- Values of the Go map `ProviderBlackholeCommunities` (provider ASN →
blackhole community string). -/
def ProviderBlackholeCommunities : List String :=
  ["3356:9999", "1299:999", "3491:999", "286:66",
   "2914:666", "3257:666", "7018:666", "6939:666", "3320:666", "6453:666",
   "6461:666", "701:666", "1239:666", "12956:666", "6762:666", "6830:666",
   "9002:666", "20804:666"]

/-- `KnownBlackholeCommunities`: the RFC 7999 tag plus every provider tag
(built by the package `init` function). -/
def KnownBlackholeCommunities : List String :=
  RFC7999Blackhole :: ProviderBlackholeCommunities

/-- `IsTier1`. -/
def IsTier1 (asn : Nat) : Bool := Tier1ASNs.contains asn

/-- `IsScrubbing`. -/
def IsScrubbing (asn : Nat) : Bool := ScrubbingASNs.contains asn

/-- `IsBlackholeCommunity`: literal membership lookup, no pattern match. -/
def IsBlackholeCommunity (community : String) : Bool :=
  KnownBlackholeCommunities.contains community

/-- `HasBlackholeCommunity`. -/
def HasBlackholeCommunity (communities : List String) : Bool :=
  communities.any IsBlackholeCommunity

/-- `HasScrubbingCenter`. -/
def HasScrubbingCenter (asPath : List Nat) : Bool :=
  asPath.any IsScrubbing

/-- `GetBlackholeCommunities`. -/
def GetBlackholeCommunities (communities : List String) : List String :=
  communities.filter IsBlackholeCommunity

/-! ### Data model (pkg/models/update.go)

The Go `BGPUpdate.Prefix` field is called `pfx` here, because `prefix`
is a Lean keyword. The `Timestamp` field is carried as a rational
number of seconds. -/

structure BGPUpdate where
  timestamp : ℚ := 0
  peerASN : Nat := 0
  pfx : String := ""
  asPath : List Nat := []
  originASN : Nat := 0
  communities : List String := []
  announcement : Bool := false
  collector : String := ""
deriving Repr, DecidableEq

/-- Severity constants from pkg/models/update.go. -/
def SeverityLow : String := "low"

def SeverityMedium : String := "medium"

def SeverityHigh : String := "high"

def SeverityCritical : String := "critical"

def EventTypeHijack : String := "hijack"

def EventTypeLeak : String := "leak"

def EventTypeBlackhole : String := "blackhole"

def CategoryAttack : String := "attack"

def CategoryDefense : String := "defense"

def CategoryMisconfiguration : String := "misconfiguration"

/-- A value stored in a Go `interface\x7b\x7d` slot of an
`[]interface\x7b\x7d` slice, as far as the event sink inspects it: the sink
accepts `float64` and `int` elements and skips everything else. -/
inductive GoIface where
  | gfloat (q : ℚ)
  | gint (n : Int)
  | gother
deriving Repr, DecidableEq

/-- The dynamic (runtime) type of the `Details["as_path"]` entry of an
event. The three detectors store the update's `ASPath`, a Go `[]uint32`;
the sink's type assertion `.([]interface\x7b\x7d)` succeeds only on the
`ifaceSlice` variant. -/
inductive GoASPathVal where
  | absent
  | uint32Slice (xs : List Nat)
  | ifaceSlice (xs : List GoIface)
deriving Repr, DecidableEq

/-- The entries of the Go `Details map[string]interface\x7b\x7d` that the
detectors populate and that the claims mention, as typed fields. Fields a
given detector does not set keep their `none` / neutral defaults. -/
structure EventDetails where
  originalOrigin : Option Nat := none
  hijackingASN : Option Nat := none
  leakingASN : Option Nat := none
  upstreamTier1 : Option Nat := none
  downstreamTier1 : Option Nat := none
  pattern : Option String := none
  signal : Option String := none
  isHostRoute : Option Bool := none
  communities : Option (List String) := none
  blackholeCommunities : Option (List String) := none
  flags : Option (List String) := none
  asPath : GoASPathVal := GoASPathVal.absent
  peerASN : Nat := 0
  collector : String := ""
  confidence : ℚ := 0
deriving Repr, DecidableEq

/-- `BGPEvent` (pkg/models/update.go); `AffectedPrefix` is called
`affectedPfx`. Fields not touched by the modelled code paths
(`RPKIStatus`, timestamps, …) are omitted; `CountryCode` defaults to the
Go zero value `""` and is filled by the sink. -/
structure BGPEvent where
  countryCode : String := ""
  eventType : String
  severity : String
  eventCategory : String
  affectedASN : Nat
  affectedPfx : String
  isActive : Bool := true
  details : EventDetails
deriving Repr, DecidableEq

/-! ### Prefix length (pkg/detector/blackhole.go, getPrefixLength)

Go scans the prefix string backwards for `'/'` and then folds the bytes
after it with `length = length*10 + int(b - '0')`, where `b - '0'` is
byte subtraction modulo 256. Prefix strings in this code base are ASCII,
where one character is one byte, so the scan is modelled on the
character list. -/

/-- The Go expression `int(b - '0')` for a byte `b`: subtraction of the
byte value 48 of the character 0, wrapping modulo 256. -/
def goByteMinusZero (c : Char) : Nat := (c.toNat + 208) % 256

/-- `getPrefixLength`: the digits (or arbitrary bytes) after the last
slash folded in base 10; 32 when the string has no slash. -/
def getPrefixLength (p : String) : Nat :=
  if p.data.contains '/' then
    ((p.data.reverse.takeWhile (fun c => c ≠ '/')).reverse).foldl
      (fun acc c => acc * 10 + goByteMinusZero c) 0
  else 32

/-! ### Blackhole detector (pkg/detector/blackhole.go)

`Process` sends at most one event on the events channel; the produced
event (or nothing) is returned. -/

def BlackholeDetector.Process (update : BGPUpdate) : Option BGPEvent :=
  if !update.announcement then none
  else if !HasBlackholeCommunity update.communities then none
  else
    let blackholeCommunities := GetBlackholeCommunities update.communities
    let prefixLen := getPrefixLength update.pfx
    let isHostRoute : Bool := prefixLen == 32 || prefixLen == 128
    let confidence : ℚ :=
      if isHostRoute then 95/100
      else if prefixLen ≥ 24 then 85/100
      else 6/10
    let severity :=
      if isHostRoute then SeverityMedium
      else if prefixLen < 16 then SeverityHigh
      else SeverityMedium
    some
      { eventType := EventTypeBlackhole
        severity := severity
        eventCategory := CategoryDefense
        affectedASN := update.originASN
        affectedPfx := update.pfx
        isActive := true
        details :=
          { communities := some update.communities
            blackholeCommunities := some blackholeCommunities
            asPath := GoASPathVal.uint32Slice update.asPath
            peerASN := update.peerASN
            collector := update.collector
            signal := some "blackhole_community"
            isHostRoute := some isHostRoute
            confidence := confidence } }

/-! ### Hijack detector (pkg/detector/hijack.go)

The origin store combines the local cache and the Redis keys
`bgp:prefix:<p>:origin` / `bgp:prefix:<p>:origins`, modelled with the
external store present (`redis != nil`): `knownOrigin` maps a prefix to
its stored origin (0 when absent, as `getKnownOrigin` reports), `moas`
maps a prefix to the Redis MOAS set. -/

structure HijackState where
  knownOrigin : String → Nat
  moas : String → List Nat

/-- The fresh detector state: nothing learned yet. -/
def HijackState.empty : HijackState :=
  { knownOrigin := fun _ => 0, moas := fun _ => [] }

/-- `setKnownOrigin`, restricted to the store contents. -/
def HijackState.setKnownOrigin (st : HijackState) (p : String) (origin : Nat) :
    HijackState :=
  { st with knownOrigin := fun q => if q = p then origin else st.knownOrigin q }

/-- `addKnownMOAS` (Redis `SADD`). -/
def HijackState.addKnownMOAS (st : HijackState) (p : String) (origin : Nat) :
    HijackState :=
  { st with
    moas := fun q =>
      if q = p then
        if (st.moas p).contains origin then st.moas p else origin :: st.moas p
      else st.moas q }

/-- The severity computed by `HijackDetector.Process` once an origin
change outside the MOAS set is established. -/
def hijackSeverity (knownOrigin : Nat) (update : BGPUpdate) : String :=
  if IsTier1 knownOrigin || IsTier1 update.originASN then SeverityCritical
  else if getPrefixLength update.pfx < 16 then SeverityHigh
  else SeverityMedium

/-- The event record `HijackDetector.Process` builds (severity, then the
base confidence 0.7 and base flag raised or extended by severity). -/
def hijackEvent (knownOrigin : Nat) (update : BGPUpdate) : BGPEvent :=
  let severity := hijackSeverity knownOrigin update
  let confidence : ℚ :=
    if severity == SeverityCritical then 9/10
    else if severity == SeverityHigh then 8/10
    else 7/10
  let flags :=
    if severity == SeverityCritical then ["origin_change"] ++ ["tier1_involved"]
    else if severity == SeverityHigh then ["origin_change"] ++ ["large_prefix"]
    else ["origin_change"]
  { eventType := EventTypeHijack
    severity := severity
    eventCategory := CategoryAttack
    affectedASN := knownOrigin
    affectedPfx := update.pfx
    isActive := true
    details :=
      { originalOrigin := some knownOrigin
        hijackingASN := some update.originASN
        asPath := GoASPathVal.uint32Slice update.asPath
        peerASN := update.peerASN
        collector := update.collector
        flags := some flags
        confidence := confidence } }

/-- `HijackDetector.Process`: returns the successor store state and the
event sent on the channel, if any. -/
def HijackDetector.Process (st : HijackState) (update : BGPUpdate) :
    HijackState × Option BGPEvent :=
  if !update.announcement || update.originASN == 0 then (st, none)
  else if HasScrubbingCenter update.asPath then (st, none)
  else
    let knownOrigin := st.knownOrigin update.pfx
    if knownOrigin == 0 then (st.setKnownOrigin update.pfx update.originASN, none)
    else if knownOrigin == update.originASN then (st, none)
    else if (st.moas update.pfx).contains update.originASN then (st, none)
    else
      (st.addKnownMOAS update.pfx update.originASN,
       some (hijackEvent knownOrigin update))

/-! ### Leak detector (unnamed detector source, LeakDetector) -/

/-- `findLeakPattern`: scan three-element windows left to right; on the
first window whose ends are Tier-1 and whose middle is neither Tier-1 nor
scrubbing, return (leak ASN, upstream Tier-1, downstream Tier-1);
otherwise (0, 0, 0). -/
def findLeakPattern : List Nat → Nat × Nat × Nat
  | asn1 :: asn2 :: asn3 :: rest =>
    if IsTier1 asn1 && IsTier1 asn3 && !IsTier1 asn2 && !IsScrubbing asn2 then
      (asn2, asn1, asn3)
    else findLeakPattern (asn2 :: asn3 :: rest)
  | _ => (0, 0, 0)

/-- The event record `LeakDetector.Process` builds from the pattern
returned by `findLeakPattern`. -/
def leakEvent (update : BGPUpdate) (leakASN tier1Before tier1After : Nat) :
    BGPEvent :=
  { eventType := EventTypeLeak
    severity := SeverityHigh
    eventCategory := CategoryMisconfiguration
    affectedASN := leakASN
    affectedPfx := update.pfx
    isActive := true
    details :=
      { pattern := some "tier1_transit_leak"
        leakingASN := some leakASN
        upstreamTier1 := some tier1Before
        downstreamTier1 := some tier1After
        asPath := GoASPathVal.uint32Slice update.asPath
        peerASN := update.peerASN
        collector := update.collector
        confidence := 85/100 } }

/-- `LeakDetector.Process`. -/
def LeakDetector.Process (update : BGPUpdate) : Option BGPEvent :=
  if !update.announcement || update.asPath.length < 3 then none
  else
    let found := findLeakPattern update.asPath
    if found.1 == 0 then none
    else some (leakEvent update found.1 found.2.1 found.2.2)

/-! ### RIS Live parser (pkg/rislive/parser.go)

The schema-flexible fields (`peer_asn`, `path`, `community` entries) are
`json.RawMessage` in Go; they are modelled by a JSON value type, with the
relevant behaviours of `json.Unmarshal` made explicit:

* unmarshalling into `uint32` succeeds on an integral number in
  [0, 2^32) and on `null` (which leaves the zero value);
* unmarshalling into `[]uint32` succeeds on an array of such numbers and
  on `null` (nil slice);
* unmarshalling into `string` succeeds on a JSON string and on `null`;
* everything else fails.

An absent field is `none` (nil `RawMessage`). -/

inductive JsonVal where
  | jnull
  | jnum (q : ℚ)
  | jstr (s : String)
  | jarr (xs : List JsonVal)
  | jother

/-- `json.Unmarshal(data, &x)` for `var x uint32`. -/
def goUnmarshalUint32 : JsonVal → Option Nat
  | JsonVal.jnull => some 0
  | JsonVal.jnum q =>
    if q.den = 1 ∧ 0 ≤ q.num ∧ q.num < 4294967296 then some q.num.toNat
    else none
  | _ => none

/-- Element-wise `uint32` unmarshalling of a JSON array: all elements
must unmarshal, else the whole array fails. -/
def goUnmarshalUint32Each : List JsonVal → Option (List Nat)
  | [] => some []
  | x :: rest =>
    match goUnmarshalUint32 x, goUnmarshalUint32Each rest with
    | some n, some ns => some (n :: ns)
    | _, _ => none

/-- `json.Unmarshal(data, &x)` for `var x []uint32`. -/
def goUnmarshalUint32List : JsonVal → Option (List Nat)
  | JsonVal.jnull => some []
  | JsonVal.jarr xs => goUnmarshalUint32Each xs
  | _ => none

/-- `json.Unmarshal(data, &x)` for `var x string`. -/
def goUnmarshalString : JsonVal → Option String
  | JsonVal.jnull => some ""
  | JsonVal.jstr s => some s
  | _ => none

/-- A decimal digit `'0'..'9'` (the only characters `strconv.ParseUint`
accepts in base 10). -/
def isDecDigit (c : Char) : Bool := 48 ≤ c.toNat && c.toNat ≤ 57

/-- The number denoted by a digit list, high digit first. -/
def decValue (cs : List Char) : Nat :=
  cs.foldl (fun acc c => acc * 10 + (c.toNat - 48)) 0

/-- `strconv.ParseUint(s, 10, 32)` as the Go parser uses it: the parsed
value on an all-digit string (clamped to the maximum `uint32` on range
overflow, which ParseUint reports together with a range error the caller
ignores), and 0 on a syntax error. -/
def goParseUint32 (s : String) : Nat :=
  if s.data ≠ [] ∧ s.data.all isDecDigit then
    let v := decValue s.data
    if v < 4294967296 then v else 4294967295
  else 0

/-- `parseASN`: try a `uint32`, then a decimal string, else 0. -/
def parseASN : Option JsonVal → Nat
  | none => 0
  | some j =>
    match goUnmarshalUint32 j with
    | some n => n
    | none =>
      match goUnmarshalString j with
      | some s => goParseUint32 s
      | none => 0

/-- `parseASPath`: `none` models the Go error return (`data` is present
but neither a `[]uint32` nor a mixed array); `some path` the flattened
path. Elements of a mixed array that are neither numbers nor number
arrays are skipped. -/
def parseASPath : Option JsonVal → Option (List Nat)
  | none => some []
  | some j =>
    match goUnmarshalUint32List j with
    | some xs => some xs
    | none =>
      match j with
      | JsonVal.jarr xs =>
        some (xs.foldl
          (fun acc elem =>
            match goUnmarshalUint32 elem with
            | some n => acc ++ [n]
            | none =>
              match goUnmarshalUint32List elem with
              | some ns => acc ++ ns
              | none => acc) [])
      | _ => none

/-- The Go loop body of `parseCommunities`: a two-element `[]uint32`
renders "<asn>:<value>" via `strconv.FormatUint` (no padding), else a
string entry is taken verbatim, else the entry is skipped. -/
def parseCommunityElem (acc : List String) (elem : JsonVal) : List String :=
  match goUnmarshalUint32List elem with
  | some [asn, value] => acc ++ [toString asn ++ ":" ++ toString value]
  | _ =>
    match goUnmarshalString elem with
    | some s => acc ++ [s]
    | none => acc

/-- `parseCommunities`: fold the loop body over the entries; an absent
`community` field (`nil` slice) gives the empty list. -/
def parseCommunities : Option (List JsonVal) → List String
  | none => []
  | some xs => xs.foldl parseCommunityElem []

/-- `RISAnnouncement`. -/
structure RISAnnouncement where
  prefixes : List String
deriving DecidableEq

/-- `RISUpdateData` after the envelope unmarshal; the schema-flexible
fields keep their raw JSON shape. -/
structure RISUpdateData where
  timestamp : ℚ := 0
  peerASN : Option JsonVal := none
  path : Option JsonVal := none
  announcements : List RISAnnouncement := []
  withdrawals : List String := []
  community : Option (List JsonVal) := none

/-- The `RISMessage` envelope, already unmarshalled. -/
structure RISMessage where
  type : String
  data : RISUpdateData

/-- The Go double loop over announcement blocks and their prefixes:
the first prefix encountered, if any. -/
def firstAnnouncedPfx : List RISAnnouncement → Option String
  | [] => none
  | ann :: rest =>
    match ann.prefixes with
    | [] => firstAnnouncedPfx rest
    | p :: _ => some p

/-- `ParseMessage` on a frame that unmarshals into the envelope. `.error`
models the non-nil error return (AS-path parse failure); `.ok none` the
(nil, nil) return. -/
def ParseMessage (msg : RISMessage) (collector : String) :
    Except String (Option BGPUpdate) :=
  if msg.type ≠ "ris_message" then Except.ok none
  else
    match parseASPath msg.data.path with
    | none => Except.error "parse AS path"
    | some asPath =>
      let peerASN := parseASN msg.data.peerASN
      let originASN := asPath.getLastD 0
      let communities := parseCommunities msg.data.community
      match firstAnnouncedPfx msg.data.announcements with
      | some p =>
        Except.ok (some
          { timestamp := msg.data.timestamp
            peerASN := peerASN
            pfx := p
            asPath := asPath
            originASN := originASN
            communities := communities
            announcement := true
            collector := collector })
      | none =>
        match msg.data.withdrawals with
        | [] => Except.ok none
        | p :: _ =>
          Except.ok (some
            { timestamp := msg.data.timestamp
              peerASN := peerASN
              pfx := p
              asPath := []
              originASN := 0
              communities := []
              announcement := false
              collector := collector })

/-! ### ASN→country resolver (database package, FileResolver)

The mapping is a Go `map[int]string`, modelled as `Int → Option String`
(`none` = key absent, lookup of an absent key yields the zero value ""). -/

/-- `FileResolver.Resolve`. -/
def FileResolver.Resolve (mapping : Int → Option String) (asn : Nat) : String :=
  (mapping (Int.ofNat asn)).getD ""

/-- `FileResolver.ResolveFromPath`: first known country along the path. -/
def FileResolver.ResolveFromPath (mapping : Int → Option String) :
    List Int → String
  | [] => ""
  | asn :: rest =>
    match mapping asn with
    | some country => country
    | none => FileResolver.ResolveFromPath mapping rest

/-- An ASCII whitespace character (the characters `strings.TrimSpace`
strips from the CSV fields modelled here; Go also strips rarer Unicode
spaces, which do not occur in ASN CSV files). -/
def isGoSpace (c : Char) : Bool :=
  c = ' ' || c = '\t' || c = '\n' || c = '\r' || c = '\u000b' || c = '\u000c'

/-- `strings.TrimSpace`. -/
def goTrimSpace (s : String) : String :=
  String.mk (((s.data.dropWhile isGoSpace).reverse.dropWhile
    isGoSpace).reverse)

/-- `strings.ToUpper` (ASCII; CSV country fields are ASCII). -/
def goToUpper (s : String) : String :=
  String.mk (s.data.map Char.toUpper)

/-- `strconv.Atoi`: an optional single sign followed by at least one
decimal digit (64-bit range errors do not occur for the inputs modelled
here). -/
def goAtoi (s : String) : Option Int :=
  match s.data with
  | [] => none
  | c :: rest =>
    if c = '-' then
      if rest ≠ [] ∧ rest.all isDecDigit then some (-(decValue rest : Int))
      else none
    else if c = '+' then
      if rest ≠ [] ∧ rest.all isDecDigit then some (decValue rest : Int)
      else none
    else if (c :: rest).all isDecDigit then some (decValue (c :: rest) : Int)
    else none

/-- One non-first CSV record, as `FileResolver.load` folds it into the
mapping: needs ≥ 2 columns, a numeric first column, and a country field
of length exactly 2 after trimming; the country is stored upper-cased. -/
def fileLoadRecord (m : Int → Option String) (record : List String) :
    Int → Option String :=
  match record with
  | c0 :: c1 :: _ =>
    match goAtoi (goTrimSpace c0) with
    | some asn =>
      let country := goToUpper (goTrimSpace c1)
      if country.length = 2 then
        fun k => if k = asn then some country else m k
      else m
    | none => m
  | _ => m

/-- `FileResolver.load` over the parsed CSV records. The first record is
inspected as a possible header: when its first column is numeric it is
stored as data, but without the two-character country check the loop body
applies to the remaining records. An empty file makes the Go loader
return a read error; the mapping stays empty. -/
def FileResolver.load (records : List (List String)) : Int → Option String :=
  match records with
  | [] => fun _ => none
  | header :: rest =>
    let m0 : Int → Option String :=
      match header with
      | c0 :: c1 :: _ =>
        match goAtoi (goTrimSpace c0) with
        | some asn =>
          fun k => if k = asn then some (goToUpper (goTrimSpace c1)) else none
        | none => fun _ => none
      | _ => fun _ => none
    rest.foldl fileLoadRecord m0

/-! ### Event sink country enrichment (main package)

The sink reads `event.Details["as_path"]` through the type assertion
`.([]interface\x7b\x7d)`; the assertion fails (yielding no path) unless
the stored value is dynamically an `[]interface\x7b\x7d`. Elements of an
asserted slice contribute `int(f)` for a `float64` (Go truncation toward
zero, `Int` division below) or the value of an `int`; other elements are
skipped. -/

def sinkAssertIfaceSlice : GoASPathVal → Option (List GoIface)
  | GoASPathVal.ifaceSlice xs => some xs
  | _ => none

def sinkExtractIntPath (xs : List GoIface) : List Int :=
  xs.foldl
    (fun acc v =>
      match v with
      | GoIface.gfloat q => acc ++ [Int.tdiv q.num (q.den : Int)]
      | GoIface.gint n => acc ++ [n]
      | GoIface.gother => acc) []

/-- The country-code enrichment the sink performs on each event before
logging and persisting it (main package, event logger goroutine). -/
def sinkCountryCode (mapping : Int → Option String) (event : BGPEvent) :
    String :=
  let cc0 := event.countryCode
  let cc1 :=
    if cc0 = "" ∧ event.affectedASN > 0 then
      FileResolver.Resolve mapping event.affectedASN
    else cc0
  let cc2 :=
    if cc0 = "" ∧ cc1 = "" then
      match sinkAssertIfaceSlice event.details.asPath with
      | some xs => FileResolver.ResolveFromPath mapping (sinkExtractIntPath xs)
      | none => cc1
    else cc1
  if cc2 = "" then "XX" else cc2

/-! ### Helper lemmas -/

/-- Inversion for a fired blackhole detector: the guards held and the
event is the record built in `Process`. -/
theorem blackholeProcess_eq_some {u : BGPUpdate} {e : BGPEvent}
    (h : BlackholeDetector.Process u = some e) :
    u.announcement = true ∧ HasBlackholeCommunity u.communities = true ∧
    e.severity = (if (getPrefixLength u.pfx == 32 || getPrefixLength u.pfx == 128)
        then SeverityMedium
        else if getPrefixLength u.pfx < 16 then SeverityHigh else SeverityMedium) ∧
    e.details.confidence = (if (getPrefixLength u.pfx == 32 || getPrefixLength u.pfx == 128)
        then (95/100 : ℚ)
        else if getPrefixLength u.pfx ≥ 24 then 85/100 else 6/10) ∧
    e.details.isHostRoute =
      some (getPrefixLength u.pfx == 32 || getPrefixLength u.pfx == 128) := by
  unfold BlackholeDetector.Process at h
  rcases ha : u.announcement with _ | _ <;> rw [ha] at h
  · simp at h
  rcases hb : HasBlackholeCommunity u.communities with _ | _ <;> rw [hb] at h
  · simp at h
  simp only [Bool.not_true, Bool.false_eq_true, if_false, Option.some.injEq] at h
  subst h
  simp

/-- Inversion for a fired hijack detector: the guards held, the event is
`hijackEvent`, and the new state extends the MOAS set. -/
theorem hijackProcess_emit {st : HijackState} {u : BGPUpdate} {e : BGPEvent}
    (h : (HijackDetector.Process st u).2 = some e) :
    u.announcement = true ∧ u.originASN ≠ 0 ∧
    HasScrubbingCenter u.asPath = false ∧
    st.knownOrigin u.pfx ≠ 0 ∧ st.knownOrigin u.pfx ≠ u.originASN ∧
    (st.moas u.pfx).contains u.originASN = false ∧
    e = hijackEvent (st.knownOrigin u.pfx) u := by
  unfold HijackDetector.Process at h
  split at h
  · simp at h
  split at h
  · simp at h
  simp only at h
  split at h
  · simp at h
  split at h
  · simp at h
  split at h
  · simp at h
  rename_i h1 h2 h3 h4 h5
  simp only [Option.some.injEq] at h
  simp only [Bool.or_eq_true, Bool.not_eq_true, not_or, Bool.not_eq_false,
    beq_iff_eq] at h1
  refine ⟨by simpa using h1.1, by simpa using h1.2, ?_, ?_, ?_, ?_, h.symm⟩
  · simpa using h2
  · simpa using h3
  · simpa using h4
  · simpa using h5

/-! ### Claims -/

/-- C2: the blackhole detector emits an event if and only if the update
is an announcement and some community string is literally a member of the
known blackhole-community set; the set contains "65535:666", "3356:9999",
"1299:999" and "6939:666" but not "6939:1234" (exact lookup, no ":666"
suffix pattern), and a withdrawal never produces an event. -/
theorem blackhole_fires_iff_literal_member :
    (∀ u : BGPUpdate, (BlackholeDetector.Process u).isSome = true ↔
        u.announcement = true ∧ HasBlackholeCommunity u.communities = true) ∧
    IsBlackholeCommunity "65535:666" = true ∧
    IsBlackholeCommunity "3356:9999" = true ∧
    IsBlackholeCommunity "1299:999" = true ∧
    IsBlackholeCommunity "6939:666" = true ∧
    IsBlackholeCommunity "6939:1234" = false ∧
    (∀ u : BGPUpdate, u.announcement = false →
        BlackholeDetector.Process u = none) := by
  refine ⟨fun u => ?_, by decide, by decide, by decide, by decide, by decide,
    fun u hw => ?_⟩
  · rcases ha : u.announcement with _ | _ <;>
      rcases hb : HasBlackholeCommunity u.communities with _ | _ <;>
      simp [BlackholeDetector.Process, ha, hb]
  · simp [BlackholeDetector.Process, hw]

/-- Witness for `blackhole_fires_iff_literal_member` at concrete inputs:
an announcement tagged "6939:1234" only fires nothing, and a withdrawal
fires nothing. -/
theorem blackhole_fires_iff_literal_member_witness :
    (BlackholeDetector.Process
        { pfx := "8.8.8.0/24", asPath := [6939, 15169], originASN := 15169,
          communities := ["6939:1234"], announcement := true,
          collector := "rrc00" }).isSome = false ∧
    BlackholeDetector.Process
        { pfx := "192.0.2.0/24", announcement := false,
          collector := "rrc00" } = none := by
  constructor
  · have h := (blackhole_fires_iff_literal_member.1
      { pfx := "8.8.8.0/24", asPath := [6939, 15169], originASN := 15169,
        communities := ["6939:1234"], announcement := true,
        collector := "rrc00" })
    rw [Bool.eq_false_iff]
    intro hc
    exact absurd ((h.mp hc).2) (by decide)
  · exact blackhole_fires_iff_literal_member.2.2.2.2.2.2
      { pfx := "192.0.2.0/24", announcement := false, collector := "rrc00" }
      rfl

/-- C7: severity and confidence of every emitted blackhole event follow
the prefix-length table: p = 32 or p = 128 → medium, 0.95;
24 ≤ p < 32 → medium, 0.85; 16 ≤ p < 24 → medium, 0.60;
p < 16 → high, 0.60. -/
theorem blackhole_severity_confidence_table :
    ∀ (u : BGPUpdate) (e : BGPEvent), BlackholeDetector.Process u = some e →
      ((getPrefixLength u.pfx = 32 ∨ getPrefixLength u.pfx = 128) →
          e.severity = SeverityMedium ∧ e.details.confidence = 95/100) ∧
      (24 ≤ getPrefixLength u.pfx → getPrefixLength u.pfx < 32 →
          e.severity = SeverityMedium ∧ e.details.confidence = 85/100) ∧
      (16 ≤ getPrefixLength u.pfx → getPrefixLength u.pfx < 24 →
          e.severity = SeverityMedium ∧ e.details.confidence = 6/10) ∧
      (getPrefixLength u.pfx < 16 →
          e.severity = SeverityHigh ∧ e.details.confidence = 6/10) := by
  intro u e h
  obtain ⟨-, -, hsev, hconf, -⟩ := blackholeProcess_eq_some h
  refine ⟨fun hp => ?_, fun hp1 hp2 => ?_, fun hp1 hp2 => ?_, fun hp => ?_⟩
  · have hb : (getPrefixLength u.pfx == 32 || getPrefixLength u.pfx == 128)
        = true := by
      rcases hp with hp | hp <;> simp [hp]
    rw [hb] at hsev hconf
    exact ⟨by simpa using hsev, by simpa using hconf⟩
  · have hb : (getPrefixLength u.pfx == 32 || getPrefixLength u.pfx == 128)
        = false := by
      simp only [Bool.or_eq_false_iff, beq_eq_false_iff_ne, ne_eq]
      omega
    rw [hb] at hsev hconf
    simp only [Bool.false_eq_true, if_false] at hsev hconf
    rw [if_neg (show ¬getPrefixLength u.pfx < 16 by omega)] at hsev
    rw [if_pos (show getPrefixLength u.pfx ≥ 24 by omega)] at hconf
    exact ⟨hsev, hconf⟩
  · have hb : (getPrefixLength u.pfx == 32 || getPrefixLength u.pfx == 128)
        = false := by
      simp only [Bool.or_eq_false_iff, beq_eq_false_iff_ne, ne_eq]
      omega
    rw [hb] at hsev hconf
    simp only [Bool.false_eq_true, if_false] at hsev hconf
    rw [if_neg (show ¬getPrefixLength u.pfx < 16 by omega)] at hsev
    rw [if_neg (show ¬getPrefixLength u.pfx ≥ 24 by omega)] at hconf
    exact ⟨hsev, hconf⟩
  · have hb : (getPrefixLength u.pfx == 32 || getPrefixLength u.pfx == 128)
        = false := by
      simp only [Bool.or_eq_false_iff, beq_eq_false_iff_ne, ne_eq]
      omega
    rw [hb] at hsev hconf
    simp only [Bool.false_eq_true, if_false] at hsev hconf
    rw [if_pos (show getPrefixLength u.pfx < 16 by omega)] at hsev
    rw [if_neg (show ¬getPrefixLength u.pfx ≥ 24 by omega)] at hconf
    exact ⟨hsev, hconf⟩

/-- The event emitted for the concrete /32 host-route blackhole
announcement used as witness input below. -/
def blackholeWitnessEvent : BGPEvent :=
  { eventType := EventTypeBlackhole
    severity := SeverityMedium
    eventCategory := CategoryDefense
    affectedASN := 13335
    affectedPfx := "192.0.2.1/32"
    isActive := true
    details :=
      { communities := some ["65535:666"]
        blackholeCommunities := some ["65535:666"]
        asPath := GoASPathVal.uint32Slice [6939, 3356, 13335]
        peerASN := 6939
        collector := "rrc00"
        signal := some "blackhole_community"
        isHostRoute := some true
        confidence := 95/100 } }

/-- Witness for `blackhole_severity_confidence_table` on a concrete /32
host-route blackhole announcement. -/
theorem blackhole_severity_confidence_table_witness :
    BlackholeDetector.Process
        { pfx := "192.0.2.1/32", asPath := [6939, 3356, 13335],
          originASN := 13335, peerASN := 6939,
          communities := ["65535:666"], announcement := true,
          collector := "rrc00" } = some blackholeWitnessEvent ∧
    blackholeWitnessEvent.severity = SeverityMedium ∧
    blackholeWitnessEvent.details.confidence = 95/100 := by
  have h : BlackholeDetector.Process
      { pfx := "192.0.2.1/32", asPath := [6939, 3356, 13335],
        originASN := 13335, peerASN := 6939,
        communities := ["65535:666"], announcement := true,
        collector := "rrc00" } = some blackholeWitnessEvent := rfl
  exact ⟨h, (blackhole_severity_confidence_table _ _ h).1 (by decide)⟩

/-- C10: a prefix string without a slash gets prefix length 32, so a
matching blackhole announcement on it is an IPv4 host route (medium,
0.95, `is_host_route = true`) and the hijack detector never applies its
below-16 escalation (severity "high" / flag "large_prefix") to it;
`getPrefixLength` is total even on a non-numeric suffix such as
"1.2.3.0/ab" (Go byte arithmetic gives 540, no failure). -/
theorem noslash_prefix_is_host_route :
    (∀ p : String, p.data.contains '/' = false → getPrefixLength p = 32) ∧
    (∀ (u : BGPUpdate) (e : BGPEvent), BlackholeDetector.Process u = some e →
        u.pfx.data.contains '/' = false →
        e.severity = SeverityMedium ∧ e.details.confidence = 95/100 ∧
        e.details.isHostRoute = some true) ∧
    (∀ (st : HijackState) (u : BGPUpdate) (e : BGPEvent),
        (HijackDetector.Process st u).2 = some e →
        u.pfx.data.contains '/' = false →
        e.severity ≠ SeverityHigh ∧
        ∀ fs, e.details.flags = some fs → "large_prefix" ∉ fs) ∧
    getPrefixLength "1.2.3.0/ab" = 540 := by
  have h32 : ∀ p : String, p.data.contains '/' = false →
      getPrefixLength p = 32 := by
    intro p h
    unfold getPrefixLength
    rw [h]
    simp
  refine ⟨h32, ?_, ?_, by decide⟩
  · intro u e h hns
    obtain ⟨-, -, hsev, hconf, hhr⟩ := blackholeProcess_eq_some h
    rw [h32 u.pfx hns] at hsev hconf hhr
    exact ⟨by simpa using hsev, by simpa using hconf, by simpa using hhr⟩
  · intro st u e h hns
    obtain ⟨-, -, -, -, -, -, he⟩ := hijackProcess_emit h
    subst he
    unfold hijackEvent hijackSeverity
    rw [h32 u.pfx hns]
    rcases ht : (IsTier1 (st.knownOrigin u.pfx) || IsTier1 u.originASN)
      with _ | _ <;> simp [ht, SeverityCritical, SeverityMedium, SeverityHigh]

/-- The event emitted for a blackhole announcement on the slashless
prefix "1.2.3.4" (witness input below). -/
def noslashWitnessEvent : BGPEvent :=
  { eventType := EventTypeBlackhole
    severity := SeverityMedium
    eventCategory := CategoryDefense
    affectedASN := 64500
    affectedPfx := "1.2.3.4"
    isActive := true
    details :=
      { communities := some ["65535:666"]
        blackholeCommunities := some ["65535:666"]
        asPath := GoASPathVal.uint32Slice [3356, 64500]
        peerASN := 3356
        collector := "rrc00"
        signal := some "blackhole_community"
        isHostRoute := some true
        confidence := 95/100 } }

/-- Witness for `noslash_prefix_is_host_route`: the slashless prefix
"1.2.3.4" and a concrete blackhole announcement on it. -/
theorem noslash_prefix_is_host_route_witness :
    getPrefixLength "1.2.3.4" = 32 ∧
    noslashWitnessEvent.severity = SeverityMedium ∧
    noslashWitnessEvent.details.confidence = 95/100 ∧
    noslashWitnessEvent.details.isHostRoute = some true :=
  ⟨noslash_prefix_is_host_route.1 "1.2.3.4" (by decide),
   noslash_prefix_is_host_route.2.1
     { pfx := "1.2.3.4", asPath := [3356, 64500], originASN := 64500,
       peerASN := 3356, communities := ["65535:666"],
       announcement := true, collector := "rrc00" }
     noslashWitnessEvent rfl (by decide)⟩

/-- The severity field of `hijackEvent`. -/
theorem hijackEvent_severity (k : Nat) (u : BGPUpdate) :
    (hijackEvent k u).severity = hijackSeverity k u := rfl

/-- The confidence field of `hijackEvent`. -/
theorem hijackEvent_confidence (k : Nat) (u : BGPUpdate) :
    (hijackEvent k u).details.confidence =
      if hijackSeverity k u == SeverityCritical then (9/10 : ℚ)
      else if hijackSeverity k u == SeverityHigh then 8/10
      else 7/10 := rfl

/-- The flags field of `hijackEvent`. -/
theorem hijackEvent_flags (k : Nat) (u : BGPUpdate) :
    (hijackEvent k u).details.flags =
      some (if hijackSeverity k u == SeverityCritical then
          ["origin_change"] ++ ["tier1_involved"]
        else if hijackSeverity k u == SeverityHigh then
          ["origin_change"] ++ ["large_prefix"]
        else ["origin_change"]) := rfl

/-- C6: every emitted hijack event follows the severity table — Tier-1
old or new origin → critical / 0.90 / flag "tier1_involved";
otherwise prefix length < 16 → high / 0.80 / flag "large_prefix";
otherwise medium / 0.70 / flag "origin_change" — with category attack
and `affected_asn` the previously known origin. -/
theorem hijack_severity_confidence_flags :
    ∀ (st : HijackState) (u : BGPUpdate) (e : BGPEvent),
      (HijackDetector.Process st u).2 = some e →
      ((IsTier1 (st.knownOrigin u.pfx) = true ∨ IsTier1 u.originASN = true) →
          e.severity = SeverityCritical ∧ e.details.confidence = 9/10 ∧
          ∃ fs, e.details.flags = some fs ∧ "tier1_involved" ∈ fs) ∧
      (IsTier1 (st.knownOrigin u.pfx) = false → IsTier1 u.originASN = false →
          getPrefixLength u.pfx < 16 →
          e.severity = SeverityHigh ∧ e.details.confidence = 8/10 ∧
          ∃ fs, e.details.flags = some fs ∧ "large_prefix" ∈ fs) ∧
      (IsTier1 (st.knownOrigin u.pfx) = false → IsTier1 u.originASN = false →
          ¬getPrefixLength u.pfx < 16 →
          e.severity = SeverityMedium ∧ e.details.confidence = 7/10 ∧
          ∃ fs, e.details.flags = some fs ∧ "origin_change" ∈ fs) ∧
      e.eventCategory = CategoryAttack ∧
      e.affectedASN = st.knownOrigin u.pfx := by
  intro st u e h
  obtain ⟨-, -, -, -, -, -, he⟩ := hijackProcess_emit h
  subst he
  refine ⟨fun ht => ?_, fun ht1 ht2 hp => ?_, fun ht1 ht2 hp => ?_, rfl, rfl⟩
  · have hb : (IsTier1 (st.knownOrigin u.pfx) || IsTier1 u.originASN)
        = true := by
      rcases ht with ht | ht <;> simp [ht]
    have hsev : hijackSeverity (st.knownOrigin u.pfx) u = SeverityCritical := by
      simp [hijackSeverity, hb]
    refine ⟨by rw [hijackEvent_severity, hsev], ?_, ?_⟩
    · rw [hijackEvent_confidence, hsev]
      simp [SeverityCritical, SeverityHigh]
    · exact ⟨["origin_change"] ++ ["tier1_involved"],
        by rw [hijackEvent_flags, hsev]; simp [SeverityCritical, SeverityHigh],
        by simp⟩
  · have hsev : hijackSeverity (st.knownOrigin u.pfx) u = SeverityHigh := by
      simp [hijackSeverity, ht1, ht2, hp]
    refine ⟨by rw [hijackEvent_severity, hsev], ?_, ?_⟩
    · rw [hijackEvent_confidence, hsev]
      simp [SeverityCritical, SeverityHigh]
    · exact ⟨["origin_change"] ++ ["large_prefix"],
        by rw [hijackEvent_flags, hsev]; simp [SeverityCritical, SeverityHigh],
        by simp⟩
  · have hsev : hijackSeverity (st.knownOrigin u.pfx) u = SeverityMedium := by
      simp [hijackSeverity, ht1, ht2, hp]
    refine ⟨by rw [hijackEvent_severity, hsev], ?_, ?_⟩
    · rw [hijackEvent_confidence, hsev]
      simp [SeverityCritical, SeverityHigh, SeverityMedium]
    · exact ⟨["origin_change"],
        by rw [hijackEvent_flags, hsev]
           simp [SeverityCritical, SeverityHigh, SeverityMedium],
        by simp⟩

/-- The concrete store state used by the hijack witnesses: prefix
"1.2.3.0/24" already learned with origin 64499. -/
def hijackWitnessState : HijackState :=
  HijackState.empty.setKnownOrigin "1.2.3.0/24" 64499

/-- The concrete divergent announcement used by the hijack witnesses. -/
def hijackWitnessUpdate : BGPUpdate :=
  { pfx := "1.2.3.0/24", asPath := [64501, 64500], originASN := 64500,
    peerASN := 64501, announcement := true, collector := "rrc00" }

/-- The event `HijackDetector.Process` emits on
`hijackWitnessState` / `hijackWitnessUpdate` (no Tier-1, /24). -/
def hijackWitnessEvent : BGPEvent :=
  { eventType := EventTypeHijack
    severity := SeverityMedium
    eventCategory := CategoryAttack
    affectedASN := 64499
    affectedPfx := "1.2.3.0/24"
    isActive := true
    details :=
      { originalOrigin := some 64499
        hijackingASN := some 64500
        asPath := GoASPathVal.uint32Slice [64501, 64500]
        peerASN := 64501
        collector := "rrc00"
        flags := some ["origin_change"]
        confidence := 7/10 } }

/-- Witness for `hijack_severity_confidence_flags` on a concrete
non-Tier-1 /24 origin change. -/
theorem hijack_severity_confidence_flags_witness :
    (HijackDetector.Process hijackWitnessState hijackWitnessUpdate).2 =
      some hijackWitnessEvent ∧
    hijackWitnessEvent.severity = SeverityMedium ∧
    hijackWitnessEvent.details.confidence = 7/10 ∧
    (∃ fs, hijackWitnessEvent.details.flags = some fs ∧
      "origin_change" ∈ fs) ∧
    hijackWitnessEvent.eventCategory = CategoryAttack ∧
    hijackWitnessEvent.affectedASN = 64499 := by
  have h : (HijackDetector.Process hijackWitnessState hijackWitnessUpdate).2 =
      some hijackWitnessEvent := rfl
  have hc := hijack_severity_confidence_flags hijackWitnessState
    hijackWitnessUpdate hijackWitnessEvent h
  have hm := hc.2.2.1 (by decide) (by decide) (by decide)
  exact ⟨h, hm.1, hm.2.1, hm.2.2, hc.2.2.2.1, hc.2.2.2.2⟩

/-- C1: behaviour of the hijack detector (external store present) on any
sequence of announcements for one prefix — scrubbed paths change
nothing; the first origin is learned silently; a repeat of the known
origin is silent; a divergent origin outside the MOAS set emits exactly
one hijack event (affected = known origin, hijacking = new origin),
grows the MOAS set and keeps the known origin; a divergent origin
already in the MOAS set is silent. -/
theorem hijack_detector_sequence :
    (∀ (st : HijackState) (u : BGPUpdate),
        HasScrubbingCenter u.asPath = true →
        HijackDetector.Process st u = (st, none)) ∧
    (∀ (st : HijackState) (u : BGPUpdate),
        u.announcement = true → u.originASN ≠ 0 →
        HasScrubbingCenter u.asPath = false →
        st.knownOrigin u.pfx = 0 →
        HijackDetector.Process st u =
          (st.setKnownOrigin u.pfx u.originASN, none) ∧
        (st.setKnownOrigin u.pfx u.originASN).knownOrigin u.pfx
          = u.originASN) ∧
    (∀ (st : HijackState) (u : BGPUpdate),
        u.announcement = true → u.originASN ≠ 0 →
        HasScrubbingCenter u.asPath = false →
        st.knownOrigin u.pfx = u.originASN →
        HijackDetector.Process st u = (st, none)) ∧
    (∀ (st : HijackState) (u : BGPUpdate),
        u.announcement = true → u.originASN ≠ 0 →
        HasScrubbingCenter u.asPath = false →
        st.knownOrigin u.pfx ≠ 0 →
        st.knownOrigin u.pfx ≠ u.originASN →
        (st.moas u.pfx).contains u.originASN = false →
        (HijackDetector.Process st u).2 =
          some (hijackEvent (st.knownOrigin u.pfx) u) ∧
        (hijackEvent (st.knownOrigin u.pfx) u).eventType = EventTypeHijack ∧
        (hijackEvent (st.knownOrigin u.pfx) u).affectedASN
          = st.knownOrigin u.pfx ∧
        (hijackEvent (st.knownOrigin u.pfx) u).details.hijackingASN
          = some u.originASN ∧
        ((HijackDetector.Process st u).1.moas u.pfx).contains u.originASN
          = true ∧
        (HijackDetector.Process st u).1.knownOrigin u.pfx
          = st.knownOrigin u.pfx) ∧
    (∀ (st : HijackState) (u : BGPUpdate),
        u.announcement = true → u.originASN ≠ 0 →
        HasScrubbingCenter u.asPath = false →
        st.knownOrigin u.pfx ≠ 0 →
        st.knownOrigin u.pfx ≠ u.originASN →
        (st.moas u.pfx).contains u.originASN = true →
        HijackDetector.Process st u = (st, none)) := by
  refine ⟨?_, ?_, ?_, ?_, ?_⟩
  · intro st u hs
    unfold HijackDetector.Process
    rcases hg : (!u.announcement || u.originASN == 0) with _ | _ <;>
      simp [hg, hs]
  · intro st u ha ho hs hk
    unfold HijackDetector.Process
    simp only [ha, ho, hs, hk, Bool.not_true, Bool.false_or, beq_iff_eq]
    simp [HijackState.setKnownOrigin, beq_iff_eq, ho]
  · intro st u ha ho hs hk
    unfold HijackDetector.Process
    simp [ha, ho, hs, hk]
  · intro st u ha ho hs hk hne hm
    unfold HijackDetector.Process
    simp only [ha, ho, hs, hk, hne, hm, Bool.not_true, Bool.false_or,
      beq_iff_eq, if_false, if_neg, Bool.false_eq_true]
    simp [hk, hne, hm, HijackState.addKnownMOAS]
    refine ⟨rfl, rfl, rfl, ?_⟩
    rw [if_neg (by simpa using hm)]
    exact List.mem_cons_self _ _
  · intro st u ha ho hs hk hne hm
    unfold HijackDetector.Process
    simp [ha, ho, hs, hk, hne, hm]
    simpa using hm

/-- The first announcement (origin 64499) of the hijack witness story. -/
def hijackWitnessFirst : BGPUpdate :=
  { pfx := "1.2.3.0/24", asPath := [64501, 64499], originASN := 64499,
    peerASN := 64501, announcement := true, collector := "rrc00" }

/-- A scrubbed-path announcement (Cloudflare 13335 on the path). -/
def hijackWitnessScrubbed : BGPUpdate :=
  { pfx := "1.2.3.0/24", asPath := [64501, 13335, 64500], originASN := 64500,
    peerASN := 64501, announcement := true, collector := "rrc00" }

/-- Witness for `hijack_detector_sequence`: the concrete story on prefix
"1.2.3.0/24" — scrubbed path silent, origin 64499 learned, repeat of
64499 silent, divergent 64500 emits once and lands in the MOAS set with
the known origin intact, repeat of 64500 silent. -/
theorem hijack_detector_sequence_witness :
    HijackDetector.Process HijackState.empty hijackWitnessScrubbed =
      (HijackState.empty, none) ∧
    HijackDetector.Process HijackState.empty hijackWitnessFirst =
      (HijackState.empty.setKnownOrigin "1.2.3.0/24" 64499, none) ∧
    HijackDetector.Process hijackWitnessState hijackWitnessFirst =
      (hijackWitnessState, none) ∧
    (HijackDetector.Process hijackWitnessState hijackWitnessUpdate).2 =
      some (hijackEvent 64499 hijackWitnessUpdate) ∧
    (hijackEvent 64499 hijackWitnessUpdate).affectedASN = 64499 ∧
    (hijackEvent 64499 hijackWitnessUpdate).details.hijackingASN
      = some 64500 ∧
    ((HijackDetector.Process hijackWitnessState hijackWitnessUpdate).1.moas
      "1.2.3.0/24").contains 64500 = true ∧
    (HijackDetector.Process hijackWitnessState hijackWitnessUpdate).1.knownOrigin
      "1.2.3.0/24" = 64499 ∧
    HijackDetector.Process
      (HijackDetector.Process hijackWitnessState hijackWitnessUpdate).1
      hijackWitnessUpdate =
      ((HijackDetector.Process hijackWitnessState hijackWitnessUpdate).1,
       none) := by
  have h1 := hijack_detector_sequence.1 HijackState.empty
    hijackWitnessScrubbed (by decide)
  have h2 := hijack_detector_sequence.2.1 HijackState.empty
    hijackWitnessFirst rfl (by decide) (by decide) rfl
  have h3 := hijack_detector_sequence.2.2.1 hijackWitnessState
    hijackWitnessFirst rfl (by decide) (by decide) rfl
  have h4 := hijack_detector_sequence.2.2.2.1 hijackWitnessState
    hijackWitnessUpdate rfl (by decide) (by decide) (by decide) (by decide)
    (by decide)
  have h5 := hijack_detector_sequence.2.2.2.2
    (HijackDetector.Process hijackWitnessState hijackWitnessUpdate).1
    hijackWitnessUpdate rfl (by decide) (by decide) (by decide) (by decide)
    (by decide)
  exact ⟨h1, h2.1, h3, h4.1, h4.2.2.1, h4.2.2.2.1, h4.2.2.2.2.1,
    h4.2.2.2.2.2, h5⟩

/-- The three-element-window condition the leak detector scans for at
index `i` of a path: ends Tier-1, middle neither Tier-1 nor scrubbing
(false when fewer than three elements remain). -/
def leakWindow (l : List Nat) (i : Nat) : Bool :=
  match l.drop i with
  | asn1 :: asn2 :: asn3 :: _ =>
    IsTier1 asn1 && IsTier1 asn3 && !IsTier1 asn2 && !IsScrubbing asn2
  | _ => false

/-- `leakWindow` in terms of indexed path elements. -/
theorem leakWindow_iff (l : List Nat) : ∀ i : Nat,
    leakWindow l i = true ↔
      i + 2 < l.length ∧ IsTier1 (l.getD i 0) = true ∧
      IsTier1 (l.getD (i + 2) 0) = true ∧
      IsTier1 (l.getD (i + 1) 0) = false ∧
      IsScrubbing (l.getD (i + 1) 0) = false := by
  induction l with
  | nil => intro i; simp [leakWindow]
  | cons a t ih =>
    intro i
    cases i with
    | zero =>
      cases t with
      | nil => simp [leakWindow]
      | cons b t2 =>
        cases t2 with
        | nil => simp [leakWindow]
        | cons c r =>
          simp only [leakWindow, List.drop_zero, List.length_cons,
            List.getD_cons_zero, List.getD_cons_succ, Bool.and_eq_true,
            Bool.not_eq_true']
          constructor
          · rintro ⟨⟨⟨h1, h3⟩, h2⟩, h4⟩
            exact ⟨by omega, h1, h3, h2, h4⟩
          · rintro ⟨-, h1, h3, h2, h4⟩
            exact ⟨⟨⟨h1, h3⟩, h2⟩, h4⟩
    | succ j =>
      have hshift : leakWindow (a :: t) (j + 1) = leakWindow t j := by
        simp [leakWindow]
      rw [hshift, ih j]
      rw [show j + 1 + 2 = (j + 2) + 1 from rfl,
        show j + 1 + 1 = (j + 1) + 1 from rfl]
      simp only [List.length_cons, List.getD_cons_succ]
      constructor
      · rintro ⟨h0, hs⟩
        exact ⟨by omega, hs⟩
      · rintro ⟨h0, hs⟩
        exact ⟨by omega, hs⟩

/-- `findLeakPattern` returns the window elements of the first index
satisfying `leakWindow`. -/
theorem findLeakPattern_of_first : ∀ (l : List Nat) (i : Nat),
    leakWindow l i = true → (∀ j, j < i → leakWindow l j = false) →
    findLeakPattern l =
      (l.getD (i + 1) 0, l.getD i 0, l.getD (i + 2) 0) := by
  intro l
  induction l with
  | nil => intro i hw; simp [leakWindow] at hw
  | cons a t ih =>
    intro i hw hmin
    cases t with
    | nil => cases i <;> simp [leakWindow, List.drop] at hw
    | cons b t2 =>
      cases t2 with
      | nil =>
        cases i with
        | zero => simp [leakWindow] at hw
        | succ j =>
          have : leakWindow (a :: [b]) (j + 1) = leakWindow [b] j := by
            simp [leakWindow]
          rw [this] at hw
          cases j <;> simp [leakWindow, List.drop] at hw
      | cons c r =>
        by_cases h0 :
            (IsTier1 a && IsTier1 c && !IsTier1 b && !IsScrubbing b) = true
        · have hi : i = 0 := by
            by_contra hne
            have h00 := hmin 0 (by omega)
            simp only [leakWindow, List.drop_zero] at h00
            rw [h0] at h00
            exact absurd h00 (by simp)
          subst hi
          unfold findLeakPattern
          rw [if_pos h0]
          simp [List.getD]
        · have hi : i ≠ 0 := by
            intro hz
            subst hz
            simp only [leakWindow, List.drop_zero] at hw
            exact h0 hw
          obtain ⟨j, rfl⟩ : ∃ j, i = j + 1 := ⟨i - 1, by omega⟩
          have hshift : ∀ k, leakWindow (a :: b :: c :: r) (k + 1)
              = leakWindow (b :: c :: r) k := by
            intro k; simp [leakWindow]
          rw [hshift] at hw
          have hmin2 : ∀ k, k < j → leakWindow (b :: c :: r) k = false := by
            intro k hk
            rw [← hshift k]
            exact hmin (k + 1) (by omega)
          unfold findLeakPattern
          rw [if_neg h0]
          rw [ih j hw hmin2]
          rw [show j + 1 + 2 = (j + 2) + 1 from rfl,
            show j + 1 + 1 = (j + 1) + 1 from rfl]
          simp [List.getD_cons_succ]

/-- When no index satisfies `leakWindow`, `findLeakPattern` returns the
sentinel (0, 0, 0). -/
theorem findLeakPattern_of_none : ∀ l : List Nat,
    (∀ i, leakWindow l i = false) → findLeakPattern l = (0, 0, 0) := by
  intro l
  induction l with
  | nil => intro _; rfl
  | cons a t ih =>
    intro h
    cases t with
    | nil => rfl
    | cons b t2 =>
      cases t2 with
      | nil => rfl
      | cons c r =>
        have h0 := h 0
        simp only [leakWindow, List.drop_zero] at h0
        unfold findLeakPattern
        rw [if_neg (by rw [h0]; exact Bool.false_ne_true)]
        apply ih
        intro i
        have : leakWindow (a :: b :: c :: r) (i + 1)
            = leakWindow (b :: c :: r) i := by
          simp [leakWindow]
        rw [← this]
        exact h (i + 1)

/-- A window index past the end of the path never satisfies
`leakWindow`. -/
theorem leakWindow_oob (l : List Nat) (i : Nat) (h : l.length < i + 3) :
    leakWindow l i = false := by
  by_contra hc
  rw [Bool.not_eq_false] at hc
  have := ((leakWindow_iff l i).mp hc).1
  omega

/-- C5 counterexample: on the path [174, 0, 3356] the window at index 0
satisfies all four conditions of the claim (174 and 3356 Tier-1, 0
neither Tier-1 nor scrubbing), yet the detector emits nothing, because
`findLeakPattern` signals "no pattern" with the sentinel 0 and the
middle ASN is literally 0. -/
theorem leak_first_window_counterexample :
    IsTier1 174 = true ∧ IsTier1 3356 = true ∧ IsTier1 0 = false ∧
    IsScrubbing 0 = false ∧
    LeakDetector.Process
      { pfx := "10.0.0.0/8", asPath := [174, 0, 3356], originASN := 3356,
        peerASN := 174, announcement := true, collector := "rrc00" }
      = none := by
  refine ⟨by decide, by decide, by decide, by decide, ?_⟩
  rfl

/-- C5 (amended): for an announcement whose path has a first index `i`
with `path[i]` and `path[i+2]` Tier-1 and `path[i+1]` neither Tier-1 nor
scrubbing, the detector emits exactly one leak event — with
`affected_asn = path[i+1]`, upstream/downstream Tier-1 details, severity
high, confidence 0.85 — provided additionally `path[i+1] ≠ 0`; when that
first matching window has middle ASN 0 (the detector's no-leak
sentinel), or no window matches, or the path is shorter than 3, or the
update is a withdrawal, nothing is emitted. At most one event per
update is structural (`Process` returns at most one event). -/
theorem leak_first_window_amended :
    (∀ (u : BGPUpdate) (l1 t1 t2 : Nat),
        (leakEvent u l1 t1 t2).severity = SeverityHigh ∧
        (leakEvent u l1 t1 t2).details.confidence = 85/100 ∧
        (leakEvent u l1 t1 t2).affectedASN = l1 ∧
        (leakEvent u l1 t1 t2).details.upstreamTier1 = some t1 ∧
        (leakEvent u l1 t1 t2).details.downstreamTier1 = some t2) ∧
    (∀ u : BGPUpdate, u.announcement = false →
        LeakDetector.Process u = none) ∧
    (∀ u : BGPUpdate, u.asPath.length < 3 →
        LeakDetector.Process u = none) ∧
    (∀ (u : BGPUpdate) (i : Nat), u.announcement = true →
        leakWindow u.asPath i = true →
        (∀ j, j < i → leakWindow u.asPath j = false) →
        u.asPath.getD (i + 1) 0 ≠ 0 →
        LeakDetector.Process u =
          some (leakEvent u (u.asPath.getD (i + 1) 0)
            (u.asPath.getD i 0) (u.asPath.getD (i + 2) 0))) ∧
    (∀ (u : BGPUpdate) (i : Nat),
        leakWindow u.asPath i = true →
        (∀ j, j < i → leakWindow u.asPath j = false) →
        u.asPath.getD (i + 1) 0 = 0 →
        LeakDetector.Process u = none) ∧
    (∀ u : BGPUpdate, (∀ i, leakWindow u.asPath i = false) →
        LeakDetector.Process u = none) := by
  refine ⟨fun u l1 t1 t2 => ⟨rfl, rfl, rfl, rfl, rfl⟩, ?_, ?_, ?_, ?_, ?_⟩
  · intro u h
    simp [LeakDetector.Process, h]
  · intro u h
    simp [LeakDetector.Process, h]
  · intro u i ha hw hmin hnz
    have hlen := ((leakWindow_iff u.asPath i).mp hw).1
    have hfp := findLeakPattern_of_first u.asPath i hw hmin
    unfold LeakDetector.Process
    rw [if_neg (by simp [ha]; omega)]
    simp only [hfp]
    rw [if_neg (by simpa using hnz)]
  · intro u i hw hmin hz
    have hfp := findLeakPattern_of_first u.asPath i hw hmin
    rcases ha : u.announcement with _ | _
    · simp [LeakDetector.Process, ha]
    by_cases hlen : u.asPath.length < 3
    · simp [LeakDetector.Process, hlen]
    · unfold LeakDetector.Process
      rw [if_neg (by simp [ha]; omega)]
      simp only [hfp]
      rw [if_pos (by simpa using hz)]
  · intro u hnone
    have hfp := findLeakPattern_of_none u.asPath hnone
    rcases ha : u.announcement with _ | _
    · simp [LeakDetector.Process, ha]
    by_cases hlen : u.asPath.length < 3
    · simp [LeakDetector.Process, hlen]
    · unfold LeakDetector.Process
      rw [if_neg (by simp [ha]; omega)]
      simp only [hfp]
      rfl

/-- The leak event of the witness below (path [6939, 65001, 3356]). -/
def leakWitnessUpdate : BGPUpdate :=
  { pfx := "203.0.113.0/24", asPath := [6939, 65001, 3356],
    originASN := 3356, peerASN := 6939, announcement := true,
    collector := "rrc00" }

/-- Witness for `leak_first_window_amended`: the Tier1–smallAS–Tier1
path [6939, 65001, 3356] emits the leak event for 65001; the scrubbed
middle [6939, 13335, 3356] emits nothing; a short path emits nothing. -/
theorem leak_first_window_amended_witness :
    LeakDetector.Process leakWitnessUpdate =
      some (leakEvent leakWitnessUpdate 65001 6939 3356) ∧
    (leakEvent leakWitnessUpdate 65001 6939 3356).severity = SeverityHigh ∧
    (leakEvent leakWitnessUpdate 65001 6939 3356).details.confidence
      = 85/100 ∧
    LeakDetector.Process
      { pfx := "203.0.113.0/24", asPath := [6939, 13335, 3356],
        originASN := 3356, peerASN := 6939, announcement := true,
        collector := "rrc00" } = none ∧
    LeakDetector.Process
      { pfx := "203.0.113.0/24", asPath := [6939, 3356],
        originASN := 3356, peerASN := 6939, announcement := true,
        collector := "rrc00" } = none := by
  have h1 := leak_first_window_amended.2.2.2.1 leakWitnessUpdate 0 rfl
    (by decide) (fun j hj => absurd hj (by omega)) (by decide)
  have hfields := leak_first_window_amended.1 leakWitnessUpdate 65001 6939 3356
  have h2 := leak_first_window_amended.2.2.2.2.2
    { pfx := "203.0.113.0/24", asPath := [6939, 13335, 3356],
      originASN := 3356, peerASN := 6939, announcement := true,
      collector := "rrc00" }
    (fun i => by
      match i with
      | 0 => decide
      | n + 1 => exact leakWindow_oob _ _ (by simp))
  have h3 := leak_first_window_amended.2.2.1
    { pfx := "203.0.113.0/24", asPath := [6939, 3356],
      originASN := 3356, peerASN := 6939, announcement := true,
      collector := "rrc00" } (by simp)
  exact ⟨h1, hfields.1, hfields.2.1, h2, h3⟩

/-- A "ris_message" frame whose announcements list is non-empty but whose
first (and only) announcement block has an empty prefixes list, with one
withdrawal. -/
def parserCounterexampleMsg : RISMessage :=
  { type := "ris_message"
    data := { announcements := [{ prefixes := [] }]
              withdrawals := ["10.0.0.0/8"] } }

/-- C3 counterexample: on a frame with a non-empty announcements list
whose first block carries no prefix, the parser does not yield an
announcement update — it falls through to the withdrawals and yields a
withdrawal update. -/
theorem parser_yield_counterexample :
    parserCounterexampleMsg.data.announcements ≠ [] ∧
    ParseMessage parserCounterexampleMsg "rrc00" =
      Except.ok (some
        { pfx := "10.0.0.0/8", asPath := [], originASN := 0,
          communities := [], announcement := false,
          collector := "rrc00" }) := by
  constructor
  · intro h
    simp [parserCounterexampleMsg] at h
  · rfl

/-- C3 (amended): a non-"ris_message" frame yields nothing; when some
announcement block carries a prefix, the parser yields exactly one
update for the first prefix of the first non-empty block, with
`announcement = true`; when no announcement block carries a prefix and
withdrawals is non-empty, it yields one update with
`announcement = false`, empty path, origin 0, empty communities and the
first withdrawn prefix; when both are prefix-free it yields nothing.
`firstAnnouncedPfx` is `none` exactly when every announcement block has
an empty prefixes list. -/
theorem parser_yield_amended :
    (∀ (msg : RISMessage) (c : String), msg.type ≠ "ris_message" →
        ParseMessage msg c = Except.ok none) ∧
    (∀ (msg : RISMessage) (c p : String) (path : List Nat),
        msg.type = "ris_message" →
        parseASPath msg.data.path = some path →
        firstAnnouncedPfx msg.data.announcements = some p →
        ParseMessage msg c = Except.ok (some
          { timestamp := msg.data.timestamp
            peerASN := parseASN msg.data.peerASN
            pfx := p
            asPath := path
            originASN := path.getLastD 0
            communities := parseCommunities msg.data.community
            announcement := true
            collector := c })) ∧
    (∀ (msg : RISMessage) (c w : String) (rest : List String)
        (path : List Nat),
        msg.type = "ris_message" →
        parseASPath msg.data.path = some path →
        firstAnnouncedPfx msg.data.announcements = none →
        msg.data.withdrawals = w :: rest →
        ParseMessage msg c = Except.ok (some
          { timestamp := msg.data.timestamp
            peerASN := parseASN msg.data.peerASN
            pfx := w
            asPath := []
            originASN := 0
            communities := []
            announcement := false
            collector := c })) ∧
    (∀ (msg : RISMessage) (c : String) (path : List Nat),
        msg.type = "ris_message" →
        parseASPath msg.data.path = some path →
        firstAnnouncedPfx msg.data.announcements = none →
        msg.data.withdrawals = [] →
        ParseMessage msg c = Except.ok none) ∧
    (∀ anns : List RISAnnouncement,
        firstAnnouncedPfx anns = none ↔ ∀ a ∈ anns, a.prefixes = []) := by
  refine ⟨?_, ?_, ?_, ?_, ?_⟩
  · intro msg c h
    unfold ParseMessage
    rw [if_pos h]
  · intro msg c p path ht hpath hfirst
    unfold ParseMessage
    rw [if_neg (by simp [ht]), hpath, hfirst]
  · intro msg c w rest path ht hpath hfirst hw
    unfold ParseMessage
    rw [if_neg (by simp [ht]), hpath, hfirst, hw]
  · intro msg c path ht hpath hfirst hw
    unfold ParseMessage
    rw [if_neg (by simp [ht]), hpath, hfirst, hw]
  · intro anns
    induction anns with
    | nil => simp [firstAnnouncedPfx]
    | cons a rest ih =>
      obtain ⟨ps⟩ := a
      cases ps with
      | nil => simpa [firstAnnouncedPfx] using ih
      | cons q qs => simp [firstAnnouncedPfx]

/-- Witness for `parser_yield_amended`: the spec §8 example frames. -/
theorem parser_yield_amended_witness :
    ParseMessage { type := "ris_error", data := {} } "rrc00"
      = Except.ok none ∧
    ParseMessage
      { type := "ris_message"
        data := { timestamp := 1705320000
                  peerASN := some (JsonVal.jnum 6939)
                  path := some (JsonVal.jarr
                    [JsonVal.jnum 6939, JsonVal.jnum 3356,
                     JsonVal.jnum 13335])
                  announcements := [{ prefixes := ["1.1.1.0/24"] }] } }
      "rrc00"
      = Except.ok (some
        { timestamp := 1705320000
          peerASN := parseASN (some (JsonVal.jnum 6939))
          pfx := "1.1.1.0/24"
          asPath := [6939, 3356, 13335]
          originASN := [6939, 3356, 13335].getLastD 0
          communities := []
          announcement := true
          collector := "rrc00" }) ∧
    ParseMessage
      { type := "ris_message"
        data := { withdrawals := ["192.0.2.0/24"] } } "rrc00"
      = Except.ok (some
        { pfx := "192.0.2.0/24", asPath := [], originASN := 0,
          communities := [], announcement := false,
          collector := "rrc00" }) := by
  refine ⟨?_, ?_, ?_⟩
  · exact parser_yield_amended.1 { type := "ris_error", data := {} }
      "rrc00" (by decide)
  · exact parser_yield_amended.2.1 _ "rrc00" "1.1.1.0/24"
      [6939, 3356, 13335] rfl (by rfl) rfl
  · exact parser_yield_amended.2.2.1 _ "rrc00" "192.0.2.0/24" []
      [] rfl rfl rfl rfl

/-- Unmarshalling a `uint32`-range integral JSON number succeeds with
its value. -/
theorem goUnmarshalUint32_natCast (a : Nat) (h : a < 4294967296) :
    goUnmarshalUint32 (JsonVal.jnum (a : ℚ)) = some a := by
  simp only [goUnmarshalUint32]
  rw [if_pos]
  · simp
  · refine ⟨Rat.den_natCast a, ?_, ?_⟩
    · simp
    · rw [Rat.num_natCast]
      exact_mod_cast h

/-- `parseASN` when the `uint32` unmarshal succeeds. -/
theorem parseASN_of_uint32 (j : JsonVal) (n : Nat)
    (h : goUnmarshalUint32 j = some n) : parseASN (some j) = n := by
  simp only [parseASN]
  rw [h]

/-- `parseASN` when the `uint32` unmarshal fails and the string
unmarshal succeeds. -/
theorem parseASN_of_string (j : JsonVal) (s : String)
    (h1 : goUnmarshalUint32 j = none) (h2 : goUnmarshalString j = some s) :
    parseASN (some j) = goParseUint32 s := by
  simp only [parseASN]
  rw [h1, h2]

/-- `parseASN` on a `uint32`-range JSON number. -/
theorem parseASN_num (v : Nat) (h : v < 4294967296) :
    parseASN (some (JsonVal.jnum (v : ℚ))) = v :=
  parseASN_of_uint32 _ v (goUnmarshalUint32_natCast v h)

/-- `parseASN` on a decimal digit string denoting a `uint32`-range
value. -/
theorem parseASN_str (v : Nat) (s : String) (h : v < 4294967296)
    (hne : s.data ≠ []) (hdig : s.data.all isDecDigit = true)
    (hval : decValue s.data = v) :
    parseASN (some (JsonVal.jstr s)) = v := by
  rw [parseASN_of_string (JsonVal.jstr s) s rfl rfl]
  unfold goParseUint32
  rw [if_pos ⟨hne, hdig⟩]
  simp only [hval]
  rw [if_pos h]

/-- `goUnmarshalUint32Each` on the empty array. -/
theorem goUnmarshalUint32Each_nil : goUnmarshalUint32Each [] = some [] := rfl

/-- `goUnmarshalUint32Each` one element at a time. -/
theorem goUnmarshalUint32Each_cons (j : JsonVal) (rest : List JsonVal) :
    goUnmarshalUint32Each (j :: rest) =
      match goUnmarshalUint32 j, goUnmarshalUint32Each rest with
      | some n, some ns => some (n :: ns)
      | _, _ => none := rfl

/-- C8: wire-shape variants parse identically — a frame with `peer_asn`
as the integral JSON number v equals the frame with it as a decimal
digit string denoting v; the mixed path [[174],[3356,7018],13335]
flattens in encounter order with `origin_asn` its last element (and an
announcement update's origin is always the last path element, 0 when
the path is empty); a community list [[65535,666],"no-export"] renders
to ["65535:666","no-export"], and every two-element numeric community
renders as "<asn>:<value>" via unpadded decimal formatting. -/
theorem parser_shape_variants :
    (∀ (t : String) (ts : ℚ) (pa : Option JsonVal)
        (ann : List RISAnnouncement) (wd : List String)
        (co : Option (List JsonVal)) (c : String) (v : Nat) (s : String),
        v < 4294967296 → s.data ≠ [] → s.data.all isDecDigit = true →
        decValue s.data = v →
        ParseMessage
          ⟨t, ⟨ts, some (JsonVal.jnum (v : ℚ)), pa, ann, wd, co⟩⟩ c =
        ParseMessage
          ⟨t, ⟨ts, some (JsonVal.jstr s), pa, ann, wd, co⟩⟩ c) ∧
    parseASPath (some (JsonVal.jarr
        [JsonVal.jarr [JsonVal.jnum 174],
         JsonVal.jarr [JsonVal.jnum 3356, JsonVal.jnum 7018],
         JsonVal.jnum 13335]))
      = some [174, 3356, 7018, 13335] ∧
    ([174, 3356, 7018, 13335] : List Nat).getLastD 0 = 13335 ∧
    (∀ (msg : RISMessage) (c : String) (u : BGPUpdate),
        ParseMessage msg c = Except.ok (some u) → u.announcement = true →
        ∃ path, parseASPath msg.data.path = some path ∧
          u.asPath = path ∧ u.originASN = path.getLastD 0) ∧
    parseCommunities (some
        [JsonVal.jarr [JsonVal.jnum 65535, JsonVal.jnum 666],
         JsonVal.jstr "no-export"])
      = ["65535:666", "no-export"] ∧
    (∀ a b : Nat, a < 4294967296 → b < 4294967296 →
        parseCommunities (some
          [JsonVal.jarr [JsonVal.jnum (a : ℚ), JsonVal.jnum (b : ℚ)]])
          = [toString a ++ ":" ++ toString b]) := by
  refine ⟨?_, by rfl, by rfl, ?_, by rfl, ?_⟩
  · intro t ts pa ann wd co c v s hv hne hdig hval
    have hpeq : parseASN (some (JsonVal.jnum (v : ℚ)))
        = parseASN (some (JsonVal.jstr s)) := by
      rw [parseASN_num v hv, parseASN_str v s hv hne hdig hval]
    unfold ParseMessage
    simp only [hpeq]
  · intro msg c u h ha
    unfold ParseMessage at h
    split at h
    · simp at h
    rcases hpath : parseASPath msg.data.path with _ | path <;>
      rw [hpath] at h
    · simp at h
    refine ⟨path, rfl, ?_⟩
    rcases hfirst : firstAnnouncedPfx msg.data.announcements with _ | p <;>
      rw [hfirst] at h
    · rcases hw : msg.data.withdrawals with _ | ⟨w, rest⟩ <;>
        rw [hw] at h
      · simp at h
      · simp only [Except.ok.injEq, Option.some.injEq] at h
        rw [← h] at ha
        simp at ha
    · simp only [Except.ok.injEq, Option.some.injEq] at h
      rw [← h]
      exact ⟨rfl, rfl⟩
  · intro a b ha hb
    have htuple : goUnmarshalUint32List
        (JsonVal.jarr [JsonVal.jnum (a : ℚ), JsonVal.jnum (b : ℚ)])
        = some [a, b] := by
      simp only [goUnmarshalUint32List]
      rw [goUnmarshalUint32Each_cons, goUnmarshalUint32_natCast a ha,
        goUnmarshalUint32Each_cons, goUnmarshalUint32_natCast b hb,
        goUnmarshalUint32Each_nil]
    show List.foldl parseCommunityElem []
      [JsonVal.jarr [JsonVal.jnum (a : ℚ), JsonVal.jnum (b : ℚ)]]
      = [toString a ++ ":" ++ toString b]
    rw [List.foldl_cons, List.foldl_nil, parseCommunityElem, htuple]
    rfl

/-- Witness for `parser_shape_variants`: peer_asn 6939 as number and as
string "6939" on one concrete frame, and the [65535, 666] community. -/
theorem parser_shape_variants_witness :
    ParseMessage
      ⟨"ris_message",
       ⟨0, some (JsonVal.jnum ((6939 : Nat) : ℚ)), none,
        [⟨["1.1.1.0/24"]⟩], [], none⟩⟩ "rrc00" =
    ParseMessage
      ⟨"ris_message",
       ⟨0, some (JsonVal.jstr "6939"), none,
        [⟨["1.1.1.0/24"]⟩], [], none⟩⟩ "rrc00" ∧
    parseCommunities (some
      [JsonVal.jarr [JsonVal.jnum ((65535 : Nat) : ℚ),
        JsonVal.jnum ((666 : Nat) : ℚ)]])
      = [toString (65535 : Nat) ++ ":" ++ toString (666 : Nat)] :=
  ⟨parser_shape_variants.1 "ris_message" 0 none [⟨["1.1.1.0/24"]⟩] [] none
    "rrc00" 6939 "6939" (by decide) (by decide) (by decide) (by decide),
   parser_shape_variants.2.2.2.2.2 65535 666 (by decide) (by decide)⟩

/-- The resolver of the sink scenario: it knows only ASN 64500 → "US". -/
def sinkBugResolver : Int → Option String :=
  fun a => if a = 64500 then some "US" else none

/-- The divergent announcement of the sink scenario; its path starts
with 64500, which the resolver knows. -/
def sinkBugUpdate : BGPUpdate :=
  { pfx := "1.2.3.0/24", asPath := [64500, 64501], originASN := 64501,
    peerASN := 64500, announcement := true, collector := "rrc00" }

/-- C4, evaluated at the failing input: the hijack event for
`sinkBugUpdate` (affected ASN 64499, unknown to the resolver) stores
`as_path` as a Go `[]uint32`; the resolver knows 64500 on that path, and
`ResolveFromPath` would return "US" — but the sink emits "XX", because
its type assertion `Details["as_path"].([]interface\x7b\x7d)` fails on
the `[]uint32` the detectors store. Had the value been an
`[]interface\x7b\x7d`, the sink would emit "US". -/
theorem sink_path_fallback_bug :
    (hijackEvent 64499 sinkBugUpdate).countryCode = "" ∧
    (hijackEvent 64499 sinkBugUpdate).affectedASN = 64499 ∧
    (hijackEvent 64499 sinkBugUpdate).details.asPath
      = GoASPathVal.uint32Slice [64500, 64501] ∧
    FileResolver.Resolve sinkBugResolver 64499 = "" ∧
    FileResolver.ResolveFromPath sinkBugResolver [64500, 64501] = "US" ∧
    sinkCountryCode sinkBugResolver (hijackEvent 64499 sinkBugUpdate)
      = "XX" ∧
    sinkCountryCode sinkBugResolver
      { hijackEvent 64499 sinkBugUpdate with
        details := { (hijackEvent 64499 sinkBugUpdate).details with
          asPath := GoASPathVal.ifaceSlice
            [GoIface.gfloat 64500, GoIface.gint 64501] } } = "US" :=
  ⟨rfl, rfl, rfl, rfl, rfl, rfl, rfl⟩

/-- C9 counterexample: a single-row file whose numeric first row carries
the three-letter country field "USA" is stored as-is — the two-character
restriction is not applied to the first row. -/
theorem fileresolver_two_letter_counterexample :
    FileResolver.load [["123", "USA"]] 123 = some "USA" ∧
    ("USA" : String).length ≠ 2 := by
  constructor
  · rfl
  · decide

/-- C9 (amended): rows after the first are rejected unless the trimmed
country field has exactly two characters, and stored codes are
upper-cased; a header row is detected by a non-numeric first column and
contributes nothing; a first row whose first column is numeric is
treated as data and stored upper-cased, but without the two-character
check applied to later rows. -/
theorem fileresolver_load_amended :
    (∀ (m : Int → Option String) (c0 c1 : String) (rest : List String),
        (goToUpper (goTrimSpace c1)).length ≠ 2 →
        fileLoadRecord m (c0 :: c1 :: rest) = m) ∧
    (∀ (m : Int → Option String) (c0 c1 : String) (rest : List String)
        (asn : Int),
        goAtoi (goTrimSpace c0) = some asn →
        (goToUpper (goTrimSpace c1)).length = 2 →
        fileLoadRecord m (c0 :: c1 :: rest)
          = fun k => if k = asn then some (goToUpper (goTrimSpace c1))
              else m k) ∧
    (∀ (m : Int → Option String) (c0 c1 : String) (rest : List String),
        goAtoi (goTrimSpace c0) = none →
        fileLoadRecord m (c0 :: c1 :: rest) = m) ∧
    (∀ (c0 c1 : String) (hs : List String) (rows : List (List String)),
        goAtoi (goTrimSpace c0) = none →
        FileResolver.load ((c0 :: c1 :: hs) :: rows)
          = rows.foldl fileLoadRecord (fun _ => none)) ∧
    (∀ (c0 c1 : String) (hs : List String) (rows : List (List String))
        (asn : Int),
        goAtoi (goTrimSpace c0) = some asn →
        FileResolver.load ((c0 :: c1 :: hs) :: rows)
          = rows.foldl fileLoadRecord
              (fun k => if k = asn then some (goToUpper (goTrimSpace c1))
                else none)) := by
  refine ⟨?_, ?_, ?_, ?_, ?_⟩
  · intro m c0 c1 rest h
    simp only [fileLoadRecord]
    rcases ha : goAtoi (goTrimSpace c0) with _ | asn <;>
      simp only [ha]
    rw [if_neg h]
  · intro m c0 c1 rest asn ha h2
    simp only [fileLoadRecord, ha]
    rw [if_pos h2]
  · intro m c0 c1 rest ha
    simp only [fileLoadRecord, ha]
  · intro c0 c1 hs rows ha
    simp only [FileResolver.load, ha]
  · intro c0 c1 hs rows asn ha
    simp only [FileResolver.load, ha]

/-- Witness for `fileresolver_load_amended` on concrete CSV rows: a
lowercase two-letter row is stored upper-cased, a three-letter later row
is dropped, a textual header contributes nothing, and a numeric first
row is data. -/
theorem fileresolver_load_amended_witness :
    fileLoadRecord (fun _ => none) ["13335", "us"]
      = (fun k => if k = 13335 then some "US" else none) ∧
    fileLoadRecord (fun _ => none) ["13335", "usa"] = (fun _ => none) ∧
    fileLoadRecord (fun _ => none) ["asn", "country_code"]
      = (fun _ => none) ∧
    FileResolver.load [["asn", "country_code"], ["13335", "US"]]
      = [["13335", "US"]].foldl fileLoadRecord (fun _ => none) ∧
    FileResolver.load [["13335", "US"], ["15169", "DE"]]
      = [["15169", "DE"]].foldl fileLoadRecord
          (fun k => if k = 13335 then some "US" else none) :=
  ⟨(fileresolver_load_amended.2.1 (fun _ => none) "13335" "us" [] 13335
     (by decide) (by decide)).trans rfl,
   fileresolver_load_amended.1 (fun _ => none) "13335" "usa" [] (by decide),
   fileresolver_load_amended.2.2.1 (fun _ => none) "asn" "country_code" []
     (by decide),
   fileresolver_load_amended.2.2.2.1 "asn" "country_code" [] [["13335", "US"]]
     (by decide),
   (fileresolver_load_amended.2.2.2.2 "13335" "US" [] [["15169", "DE"]] 13335
     (by decide)).trans rfl⟩

end BGPRadar
